import Mathlib

/-!
Verification of the resilient market-data ingestion pipeline of the
`stock_trading` crate: a shallow embedding of the streaming client
(`websocket_service.rs`), the cache coordinator (`stock_trading.rs`,
`DataService`) and the backoff / failure policy (`error_handling.rs`),
together with theorems settling the frozen claims about them.

Modelling conventions, used uniformly below:
* Instants (`std::time::Instant` / `SystemTime`) and durations are natural
  numbers on one abstract clock; constructor constants are written in whole
  seconds, exactly as the source writes them (`Duration::from_secs(n)` ↦ `n`).
  `Instant::duration_since` / Nat subtraction both saturate at zero;
  `SystemTime::duration_since(t)` succeeds exactly when `t ≤ now`, which is
  modelled by an explicit `t ≤ now` guard wherever the source pattern-matches
  on the `Result`.
* Prices (`f64` in the source) are modelled as integers: every price
  computation reached by the claims only compares prices (`<`, `<=`,
  `partial_cmp`) or copies them, and finite doubles embed order-faithfully
  into the integers.  The one place the source does float arithmetic on a
  price (`quote.last_price * 0.5`) only feeds a log line and is not modelled.
* `HashMap` / `HashSet` are modelled as association lists / lists with
  distinct keys; `alistInsert` replaces like `HashMap::insert`.
-/

/-- Association-list lookup, the model of `HashMap::get`. -/
def alistLookup {κ β : Type} [DecidableEq κ] (k : κ) : List (κ × β) → Option β
  | [] => none
  | p :: rest => if p.1 = k then some p.2 else alistLookup k rest

/-- Association-list insert-or-replace, the model of `HashMap::insert`. -/
def alistInsert {κ β : Type} [DecidableEq κ] (k : κ) (v : β) (l : List (κ × β)) :
    List (κ × β) :=
  (k, v) :: l.filter (fun p => p.1 ≠ k)

/-- Association-list removal, the model of `HashMap::remove`. -/
def alistErase {κ β : Type} [DecidableEq κ] (k : κ) (l : List (κ × β)) :
    List (κ × β) :=
  l.filter (fun p => p.1 ≠ k)

theorem alistLookup_insert {κ β : Type} [DecidableEq κ] (k : κ) (v : β)
    (l : List (κ × β)) : alistLookup k (alistInsert k v l) = some v := by
  simp [alistLookup, alistInsert]

/-! ## `error_handling.rs` — backoff and failure policy -/

/-- `NetworkError` (error_handling.rs): network error taxonomy. -/
inductive NetworkError where
  | connectionFailed (message : String) (retry_after : Option Nat)
  | timeout (operation : String) (duration : Nat)
  | rateLimitExceeded (retry_after : Nat) (limit : Nat)
  | serviceUnavailable (service : String) (estimated_recovery : Option Nat)
  | invalidResponse (details : String)
  | authenticationFailed (reason : String)
  | offline
deriving DecidableEq, Repr

/-- `Display for NetworkError` (error_handling.rs).  The `{:?}` rendering of
durations and times is abstracted by `toString` of the numeric value. -/
def NetworkError.display : NetworkError → String
  | .connectionFailed message retry_after =>
    match retry_after with
    | some duration => "Connection failed: " ++ message ++ ". Retry in " ++ toString duration
    | none => "Connection failed: " ++ message
  | .timeout operation duration =>
    "Operation '" ++ operation ++ "' timed out after " ++ toString duration
  | .rateLimitExceeded retry_after limit =>
    "Rate limit exceeded (" ++ toString limit ++ " requests). Retry in " ++ toString retry_after
  | .serviceUnavailable service estimated_recovery =>
    match estimated_recovery with
    | some recovery_time =>
      "Service '" ++ service ++ "' unavailable. Estimated recovery: " ++ toString recovery_time
    | none => "Service '" ++ service ++ "' unavailable"
  | .invalidResponse details => "Invalid response: " ++ details
  | .authenticationFailed reason => "Authentication failed: " ++ reason
  | .offline => "Network is offline. Using cached data."

/-- `ConnectionStatus` (error_handling.rs): user-facing connection status. -/
inductive ConnectionStatus where
  | online
  | offline
  | degraded (reason : String)
  | rateLimited (retry_after : Nat)
  | reconnecting (attempt : Nat) (max_attempts : Nat)
deriving DecidableEq, Repr

/-- `RateLimiter` (error_handling.rs): sliding window of request timestamps
plus exponential-backoff state.  `request_timestamps` is the `VecDeque`, head
first (oldest first). -/
structure RateLimiter where
  max_requests_per_window : Nat
  window_duration : Nat
  request_timestamps : List Nat
  backoff_multiplier : Nat
  current_backoff : Nat
  max_backoff : Nat
  consecutive_failures : Nat
deriving DecidableEq, Repr

/-- `RateLimiter::new` (error_handling.rs).  The multiplier `2.0` is the
integer `2`: `current_backoff` always holds a whole number of seconds, so the
source's `(secs_f64 * 2.0) as u64` is exact integer doubling. -/
def RateLimiter.new (max_requests_per_window window_duration : Nat) : RateLimiter where
  max_requests_per_window := max_requests_per_window
  window_duration := window_duration
  request_timestamps := []
  backoff_multiplier := 2
  current_backoff := 1
  max_backoff := 300
  consecutive_failures := 0

/-- The eviction loop at the top of `RateLimiter::check_rate_limit`: pop from
the front while the front timestamp is strictly older than the window. -/
def evictOldTimestamps (window now : Nat) : List Nat → List Nat
  | [] => []
  | t :: rest => if window < now - t then evictOldTimestamps window now rest else t :: rest

/-- The retry-after computed by `RateLimiter::check_rate_limit` when the
window is full: time until the oldest retained timestamp exits the window
(`window_duration.saturating_sub(now - oldest)`), or the whole window when
the deque is empty. -/
def rateLimitRetryAfter (window now : Nat) (ts : List Nat) : Nat :=
  match ts.head? with
  | some oldest => window - (now - oldest)
  | none => window

/-- `RateLimiter::check_rate_limit` (error_handling.rs). -/
def RateLimiter.check_rate_limit (s : RateLimiter) (now : Nat) :
    RateLimiter × Except NetworkError Unit :=
  let ts := evictOldTimestamps s.window_duration now s.request_timestamps
  if s.max_requests_per_window ≤ ts.length then
    ({ s with request_timestamps := ts },
      .error (.rateLimitExceeded (rateLimitRetryAfter s.window_duration now ts)
        s.max_requests_per_window))
  else
    ({ s with request_timestamps := ts ++ [now] }, .ok ())

/-- `RateLimiter::record_success` (error_handling.rs). -/
def RateLimiter.record_success (s : RateLimiter) : RateLimiter :=
  { s with consecutive_failures := 0, current_backoff := 1 }

/-- `RateLimiter::record_failure` (error_handling.rs). -/
def RateLimiter.record_failure (s : RateLimiter) : RateLimiter :=
  { s with
    consecutive_failures := s.consecutive_failures + 1
    current_backoff := min (s.current_backoff * s.backoff_multiplier) s.max_backoff }

/-- `RateLimiter::get_backoff_duration` (error_handling.rs). -/
def RateLimiter.get_backoff_duration (s : RateLimiter) : Nat := s.current_backoff

/-- `RateLimiter::get_failure_count` (error_handling.rs). -/
def RateLimiter.get_failure_count (s : RateLimiter) : Nat := s.consecutive_failures

/-- `n` consecutive `record_failure` calls. -/
def RateLimiter.iterate_failures (s : RateLimiter) : Nat → RateLimiter
  | 0 => s
  | n + 1 => (s.iterate_failures n).record_failure

/-- `ErrorHandlingStrategy` (error_handling.rs). -/
inductive ErrorHandlingStrategy where
  | retryWithBackoff (delay : Nat) (max_attempts : Nat)
  | queueRequest (retry_after : Nat)
  | fallbackToCache
  | showError (user_message : String)
  | ignore
deriving DecidableEq, Repr

/-- `NetworkErrorHandler` (error_handling.rs): policy state.  The GPUI entity
wrapper and event emission are runtime concerns outside the model. -/
structure NetworkErrorHandler where
  connection_status : ConnectionStatus
  rate_limiter : RateLimiter
  error_history : List (NetworkError × Nat)
  max_error_history : Nat
  offline_mode_enabled : Bool
  auto_retry_enabled : Bool
  max_retry_attempts : Nat
  fallback_to_cache_enabled : Bool
deriving DecidableEq, Repr

/-- The history push with bounds check at the top of
`NetworkErrorHandler::handle_network_error`. -/
def pushErrorHistory (h : NetworkErrorHandler) (e : NetworkError) (now : Nat) :
    NetworkErrorHandler :=
  let hist := h.error_history ++ [(e, now)]
  let hist := if h.max_error_history < hist.length then hist.tail else hist
  { h with error_history := hist }

/-- `NetworkErrorHandler::handle_network_error` (error_handling.rs): records
the error, updates status and backoff state, and selects a strategy.  The
source wraps the strategy in `Ok` and emits UI events; the events are outside
the model. -/
def NetworkErrorHandler.handle_network_error (h0 : NetworkErrorHandler)
    (e : NetworkError) (now : Nat) : NetworkErrorHandler × ErrorHandlingStrategy :=
  let h := pushErrorHistory h0 e now
  match e with
  | .connectionFailed message retry_after =>
    let h := { h with
      connection_status := .offline
      rate_limiter := h.rate_limiter.record_failure }
    if h.auto_retry_enabled then
      (h, .retryWithBackoff (retry_after.getD h.rate_limiter.get_backoff_duration)
        h.max_retry_attempts)
    else if h.fallback_to_cache_enabled then
      (h, .fallbackToCache)
    else
      (h, .showError (NetworkError.connectionFailed message retry_after).display)
  | .timeout _operation _duration =>
    let h := { h with rate_limiter := h.rate_limiter.record_failure }
    if h.auto_retry_enabled ∧ h.rate_limiter.get_failure_count < h.max_retry_attempts then
      (h, .retryWithBackoff h.rate_limiter.get_backoff_duration h.max_retry_attempts)
    else
      (h, .fallbackToCache)
  | .rateLimitExceeded retry_after _limit =>
    let h := { h with connection_status := .rateLimited retry_after }
    (h, .queueRequest retry_after)
  | .serviceUnavailable service estimated_recovery =>
    let h := { h with
      connection_status := .degraded "Service temporarily unavailable" }
    if h.fallback_to_cache_enabled then
      (h, .fallbackToCache)
    else
      (h, .showError (NetworkError.serviceUnavailable service estimated_recovery).display)
  | .invalidResponse details =>
    if h.fallback_to_cache_enabled then
      (h, .fallbackToCache)
    else
      (h, .showError (NetworkError.invalidResponse details).display)
  | .authenticationFailed _reason =>
    (h, .showError "Authentication failed. Please check your credentials.")
  | .offline =>
    let h := { h with connection_status := .offline, offline_mode_enabled := true }
    (h, .fallbackToCache)

/-! ## `websocket_service.rs` — streaming client -/

/-- `MessageType` (websocket_service.rs). -/
inductive MessageType where
  | quote
  | trade
  | orderBook
  | orderUpdate
  | marketStatus
  | heartbeat
  | error
  | subscribe
  | unsubscribe
  | authentication
  | systemStatus
deriving DecidableEq, Repr

/-- The `as u8` discriminant of `MessageType`, used inside the deduplication
key (declaration order, as in the Rust enum). -/
def MessageType.code : MessageType → Nat
  | .quote => 0
  | .trade => 1
  | .orderBook => 2
  | .orderUpdate => 3
  | .marketStatus => 4
  | .heartbeat => 5
  | .error => 6
  | .subscribe => 7
  | .unsubscribe => 8
  | .authentication => 9
  | .systemStatus => 10

/-- Modelled from the spec: `OrderSide` lives in `market_data.rs`, which is
not under src/.  The spec's Trade record has a side `buy/sell/short`. -/
inductive OrderSide where
  | buy
  | sell
  | short
deriving DecidableEq, Repr

/-- Modelled from the spec: `OrderBookEntry` lives in `market_data.rs`, which
is not under src/.  The spec's order-book level is (price, size, order-count)
per side; the code in src/ reads the `price` field and constructs entries
from (price, quantity, side). -/
structure OrderBookEntry where
  price : Int
  quantity : Nat
  side : OrderSide
deriving DecidableEq, Repr

/-- `QuoteUpdate` (websocket_service.rs).  `open` is a Lean keyword, so the
field is written `open_`. -/
structure QuoteUpdate where
  symbol : String
  bid : Int
  ask : Int
  bid_size : Nat
  ask_size : Nat
  last_price : Int
  last_size : Nat
  volume : Nat
  timestamp : Nat
  change : Int
  change_percent : Int
  high : Int
  low : Int
  open_ : Int
deriving DecidableEq, Repr

/-- `TradeUpdate` (websocket_service.rs). -/
structure TradeUpdate where
  symbol : String
  price : Int
  size : Nat
  side : OrderSide
  timestamp : Nat
  trade_id : String
  conditions : List String
  venue : Option String
deriving DecidableEq, Repr

/-- `OrderBookUpdate` (websocket_service.rs). -/
structure OrderBookUpdate where
  symbol : String
  bids : List OrderBookEntry
  asks : List OrderBookEntry
  timestamp : Nat
  sequence : Nat
  is_snapshot : Bool
deriving DecidableEq, Repr

/-- The `serde_json::Value` payload of a wire message, restricted to the
decodings the pipeline actually attempts.  `other` stands for every payload
that decodes as none of the three data records. -/
inductive WSData where
  | quote (q : QuoteUpdate)
  | trade (t : TradeUpdate)
  | book (b : OrderBookUpdate)
  | other
deriving DecidableEq, Repr

/-- `serde_json::from_value::<QuoteUpdate>` on a message payload. -/
def WSData.decodeQuote : WSData → Except String QuoteUpdate
  | .quote q => .ok q
  | _ => .error "failed to decode QuoteUpdate"

/-- `serde_json::from_value::<TradeUpdate>` on a message payload. -/
def WSData.decodeTrade : WSData → Except String TradeUpdate
  | .trade t => .ok t
  | _ => .error "failed to decode TradeUpdate"

/-- `serde_json::from_value::<OrderBookUpdate>` on a message payload. -/
def WSData.decodeBook : WSData → Except String OrderBookUpdate
  | .book b => .ok b
  | _ => .error "failed to decode OrderBookUpdate"

/-- `WebSocketMessage` (websocket_service.rs). -/
structure WebSocketMessage where
  message_type : MessageType
  symbol : Option String
  data : WSData
  timestamp : Nat
  sequence : Option Nat
deriving DecidableEq, Repr

/-- `WebSocketSubscription` (websocket_service.rs). -/
structure WebSocketSubscription where
  symbol : String
  message_types : List MessageType
  subscribed_at : Nat
  is_active : Bool
  subscription_id : String
deriving DecidableEq, Repr

/-- `WebSocketSubscription::new` (websocket_service.rs). -/
def WebSocketSubscription.new (symbol : String) (message_types : List MessageType)
    (now : Nat) : Except String WebSocketSubscription :=
  if symbol = "" then .error "Symbol cannot be empty"
  else if message_types = [] then .error "At least one message type must be specified"
  else .ok
    { symbol := symbol
      message_types := message_types
      subscribed_at := now
      is_active := true
      subscription_id := symbol ++ "_" ++ toString now }

/-- `ConnectionState` (websocket_service.rs). -/
inductive ConnectionState where
  | disconnected
  | connecting
  | connected
  | reconnecting (attempt : Nat) (next_retry_in : Nat)
  | error (message : String) (recoverable : Bool)
deriving DecidableEq, Repr

/-- The deduplication key: the source formats
`"{symbol}_{message_type as u8}_{timestamp:?}"`; the triple is that string's
content. -/
def messageId (symbol : String) (t : MessageType) (timestamp : Nat) :
    String × Nat × Nat :=
  (symbol, t.code, timestamp)

/-- `WebSocketService` (websocket_service.rs), restricted to the state the
claims reach.  Omitted fields are the live socket handle, the handler
closures, the endpoint pool and reconnect counters, heartbeat configuration
and the remaining health counters: none of them are read or written by the
message pipeline, the subscription operations or the rate limit, except as
noted on each operation.  `sent_frames` models the frames handed to
`send_message` while connected. -/
structure WebSocketService where
  subscriptions : List (String × WebSocketSubscription)
  connection_state : ConnectionState
  message_buffer : List WebSocketMessage
  max_buffer_size : Nat
  last_heartbeat : Option Nat
  messages_received_count : Nat
  subscription_rate_limit : Nat
  subscription_window : Nat
  subscription_timestamps : List Nat
  max_subscriptions_per_connection : Nat
  message_sequence_tracker : List (String × Nat)
  message_deduplication_cache : List ((String × Nat × Nat) × Nat)
  deduplication_window : Nat
  enable_message_ordering : Bool
  enable_deduplication : Bool
  data_quality_checks_enabled : Bool
  sent_frames : List WebSocketMessage
deriving DecidableEq, Repr

/-- `WebSocketService::new` (websocket_service.rs), the modelled fields. -/
def WebSocketService.new : WebSocketService where
  subscriptions := []
  connection_state := .disconnected
  message_buffer := []
  max_buffer_size := 1000
  last_heartbeat := none
  messages_received_count := 0
  subscription_rate_limit := 10
  subscription_window := 1
  subscription_timestamps := []
  max_subscriptions_per_connection := 100
  message_sequence_tracker := []
  message_deduplication_cache := []
  deduplication_window := 5
  enable_message_ordering := true
  enable_deduplication := true
  data_quality_checks_enabled := true
  sent_frames := []

/-- `WebSocketService::is_duplicate_message` (websocket_service.rs): a
message is a duplicate when its (symbol, kind, timestamp) key was recorded
within the deduplication window.  `SystemTime::duration_since` succeeds only
when `last_seen ≤ now`. -/
def WebSocketService.is_duplicate_message (s : WebSocketService)
    (m : WebSocketMessage) (now : Nat) : Bool :=
  match m.symbol with
  | some symbol =>
    match alistLookup (messageId symbol m.message_type m.timestamp)
        s.message_deduplication_cache with
    | some last_seen =>
      decide (last_seen ≤ now) && decide (now - last_seen < s.deduplication_window)
    | none => false
  | none => false

/-- `WebSocketService::update_deduplication_cache` (websocket_service.rs):
record the key, then drop entries older than the window. -/
def WebSocketService.update_deduplication_cache (s : WebSocketService)
    (m : WebSocketMessage) (now : Nat) : WebSocketService :=
  match m.symbol with
  | some symbol =>
    let cache := alistInsert (messageId symbol m.message_type m.timestamp) now
      s.message_deduplication_cache
    let cache := cache.filter fun p =>
      decide (p.2 ≤ now) && decide (now - p.2 < s.deduplication_window)
    { s with message_deduplication_cache := cache }
  | none => s

/-- `WebSocketService::validate_message_order` (websocket_service.rs):
`false` means the per-symbol sequence number did not strictly increase. -/
def WebSocketService.validate_message_order (s : WebSocketService)
    (m : WebSocketMessage) : Bool :=
  match m.symbol, m.sequence with
  | some symbol, some sequence =>
    match alistLookup symbol s.message_sequence_tracker with
    | some last_sequence => decide (last_sequence < sequence)
    | none => true
  | _, _ => true

/-- `WebSocketService::update_sequence_tracker` (websocket_service.rs). -/
def WebSocketService.update_sequence_tracker (s : WebSocketService)
    (m : WebSocketMessage) : WebSocketService :=
  match m.symbol, m.sequence with
  | some symbol, some sequence =>
    { s with message_sequence_tracker :=
        alistInsert symbol sequence s.message_sequence_tracker }
  | _, _ => s

/-- `WebSocketService::validate_quote_quality` (websocket_service.rs).  The
50% day-range check only logs a warning and rejects nothing. -/
def WebSocketService.validate_quote_quality (m : WebSocketMessage) :
    Except String Unit := do
  let quote ← m.data.decodeQuote
  if quote.symbol = "" then throw "Quote has empty symbol"
  else if quote.bid ≤ 0 ∨ quote.ask ≤ 0 ∨ quote.last_price ≤ 0 then
    throw "Quote has invalid prices"
  else if quote.ask ≤ quote.bid then throw "Quote has invalid spread (bid >= ask)"
  else pure ()

/-- `WebSocketService::validate_trade_quality` (websocket_service.rs). -/
def WebSocketService.validate_trade_quality (m : WebSocketMessage) :
    Except String Unit := do
  let trade ← m.data.decodeTrade
  if trade.symbol = "" then throw "Trade has empty symbol"
  else if trade.trade_id = "" then throw "Trade has empty trade ID"
  else if trade.price ≤ 0 then throw "Trade has invalid price"
  else if trade.size = 0 then throw "Trade has zero size"
  else pure ()

/-- The adjacent-pair loops in `validate_order_book_quality`. -/
def adjacentPairsOK (ok : OrderBookEntry → OrderBookEntry → Bool) :
    List OrderBookEntry → Bool
  | [] => true
  | [_] => true
  | a :: b :: rest => ok a b && adjacentPairsOK ok (b :: rest)

/-- `WebSocketService::validate_order_book_quality` (websocket_service.rs):
bids must be non-increasing, asks non-decreasing, and best bid < best ask. -/
def WebSocketService.validate_order_book_quality (m : WebSocketMessage) :
    Except String Unit := do
  let order_book ← m.data.decodeBook
  if order_book.symbol = "" then throw "Order book has empty symbol"
  else if !(adjacentPairsOK (fun prev curr => !decide (prev.price < curr.price))
      order_book.bids) then
    throw "Order book bids not properly sorted"
  else if !(adjacentPairsOK (fun prev curr => !decide (curr.price < prev.price))
      order_book.asks) then
    throw "Order book asks not properly sorted"
  else
    match order_book.bids.head?, order_book.asks.head? with
    | some best_bid, some best_ask =>
      if best_ask.price ≤ best_bid.price then throw "Order book has invalid spread"
      else pure ()
    | _, _ => pure ()

/-- `WebSocketService::validate_message_quality` (websocket_service.rs). -/
def WebSocketService.validate_message_quality (m : WebSocketMessage) :
    Except String Unit :=
  match m.message_type with
  | .quote => WebSocketService.validate_quote_quality m
  | .trade => WebSocketService.validate_trade_quality m
  | .orderBook => WebSocketService.validate_order_book_quality m
  | _ => .ok ()

/-- Outcome of `WebSocketService::handle_message`.  `dispatched` is the fall-
through of the pipeline: the registered handler for the kind (if any) is
invoked and a `MessageReceived` event is emitted; its flag records whether
the ordering check logged an out-of-order warning on the way. -/
inductive WSResult where
  | heartbeat
  | duplicate
  | rejected (reason : String)
  | dispatched (outOfOrder : Bool)
deriving DecidableEq, Repr

/-- `WebSocketService::handle_message` (websocket_service.rs): health
tracking, heartbeat short-circuit, deduplication, ordering check (observed,
not enforced), data-quality validation, cache updates, then dispatch and
event emission. -/
def WebSocketService.handle_message (s0 : WebSocketService)
    (m : WebSocketMessage) (now : Nat) : WebSocketService × WSResult :=
  let s := { s0 with messages_received_count := s0.messages_received_count + 1 }
  if m.message_type = .heartbeat then
    ({ s with last_heartbeat := some now }, .heartbeat)
  else if s0.enable_deduplication && s0.is_duplicate_message m now then
    (s, .duplicate)
  else
    let outOfOrder := s0.enable_message_ordering && !(s0.validate_message_order m)
    match (if s0.data_quality_checks_enabled then
        WebSocketService.validate_message_quality m else .ok ()) with
    | .error e => (s, .rejected e)
    | .ok _ =>
      let s := if s0.enable_deduplication then s.update_deduplication_cache m now else s
      let s := if s0.enable_message_ordering then s.update_sequence_tracker m else s
      (s, .dispatched outOfOrder)

/-- `WebSocketService::check_subscription_rate_limit` (websocket_service.rs):
prune timestamps outside the window (`SystemTime::duration_since` failures
are also dropped), then check the sliding-window rate limit and the total
subscription ceiling. -/
def WebSocketService.check_subscription_rate_limit (s0 : WebSocketService)
    (now : Nat) : WebSocketService × Except String Unit :=
  let ts := s0.subscription_timestamps.filter fun t =>
    decide (t ≤ now) && decide (now - t < s0.subscription_window)
  let s := { s0 with subscription_timestamps := ts }
  if s.subscription_rate_limit ≤ ts.length then
    (s, .error ("Subscription rate limit exceeded: "
      ++ toString s.subscription_rate_limit ++ " subscriptions per "
      ++ toString s.subscription_window))
  else if s.max_subscriptions_per_connection ≤ s.subscriptions.length then
    (s, .error ("Maximum subscriptions per connection exceeded: "
      ++ toString s.max_subscriptions_per_connection))
  else
    (s, .ok ())

/-- `WebSocketService::subscribe_to_symbol` (websocket_service.rs): rate
limit and ceiling, duplicate-subscription check, subscription construction,
then record the subscription and its rate-limit timestamp and send the
subscribe frame when connected.  The subscribe frame's
`serde_json::to_value(&subscription)` payload is the `other` payload here;
`WebSocketMessage::new` never fails. -/
def WebSocketService.subscribe_to_symbol (s0 : WebSocketService)
    (symbol : String) (message_types : List MessageType) (now : Nat) :
    WebSocketService × Except String Unit :=
  match s0.check_subscription_rate_limit now with
  | (s, .error e) => (s, .error e)
  | (s, .ok _) =>
    if (alistLookup symbol s.subscriptions).isSome then
      (s, .error ("Already subscribed to symbol: " ++ symbol))
    else
      match WebSocketSubscription.new symbol message_types now with
      | .error e => (s, .error e)
      | .ok subscription =>
        let frame : WebSocketMessage :=
          { message_type := .subscribe
            symbol := some symbol
            data := .other
            timestamp := now
            sequence := none }
        let s := { s with
          subscriptions := alistInsert symbol subscription s.subscriptions
          subscription_timestamps := s.subscription_timestamps ++ [now] }
        let s := if s.connection_state = ConnectionState.connected then
            { s with sent_frames := s.sent_frames ++ [frame] }
          else s
        (s, .ok ())

/-- `WebSocketService::unsubscribe_from_symbol` (websocket_service.rs): a
no-op success when the symbol is not subscribed. -/
def WebSocketService.unsubscribe_from_symbol (s0 : WebSocketService)
    (symbol : String) (now : Nat) : WebSocketService × Except String Unit :=
  match alistLookup symbol s0.subscriptions with
  | some _subscription =>
    let frame : WebSocketMessage :=
      { message_type := .unsubscribe
        symbol := some symbol
        data := .other
        timestamp := now
        sequence := none }
    let s := { s0 with subscriptions := alistErase symbol s0.subscriptions }
    let s := if s.connection_state = ConnectionState.connected then
        { s with sent_frames := s.sent_frames ++ [frame] }
      else s
    (s, .ok ())
  | none => (s0, .ok ())

/-! ## `stock_trading.rs` — cache coordinator (`DataService`) -/

/-- Modelled from the spec: `MarketStatus` lives in `market_data.rs`, which
is not under src/.  The code in src/ only constructs `MarketStatus::Open`
("assume open if receiving updates"); `closed` stands for the remaining
states. -/
inductive MarketStatus where
  | open_
  | closed
deriving DecidableEq, Repr

/-- Modelled from the spec: `Candle` lives in `market_data.rs`, which is not
under src/.  The spec's Candle is one OHLCV record for a fixed period. -/
structure Candle where
  open_ : Int
  high : Int
  low : Int
  close : Int
  volume : Nat
  timestamp : Nat
deriving DecidableEq, Repr

/-- Modelled from the spec: `TimeFrame` lives in `market_data.rs`, which is
not under src/; it keys the historical cache per period. -/
inductive TimeFrame where
  | minute
  | hour
  | day
deriving DecidableEq, Repr

/-- Modelled from the spec: `MarketData` lives in `market_data.rs`, which is
not under src/.  The fields are exactly those the code in src/ constructs in
`process_quote_update` and reads in `validate_market_data` and
`process_trade_update`. -/
structure MarketData where
  symbol : String
  current_price : Int
  change : Int
  change_percent : Int
  volume : Nat
  market_cap : Option Int
  high_52w : Option Int
  low_52w : Option Int
  timestamp : Nat
  market_status : MarketStatus
  previous_close : Int
  day_high : Int
  day_low : Int
  average_volume : Option Nat
  bid : Option Int
  ask : Option Int
  bid_size : Option Nat
  ask_size : Option Nat
deriving DecidableEq, Repr

/-- Modelled from the spec: `OrderBook` lives in `market_data.rs`, which is
not under src/.  The fields are those the code in src/ constructs in its
fallback literal in `process_order_book_update` (the spread-percent
rendering is not modelled; no claim reads it). -/
structure OrderBook where
  symbol : String
  bids : List OrderBookEntry
  asks : List OrderBookEntry
  timestamp : Nat
  spread : Int
  sequence_number : Nat
deriving DecidableEq, Repr

/-- Modelled from the spec: `OrderBook::calculate_spread` lives in
`market_data.rs`, which is not under src/.  The spec says spread and
mid-price are recomputed after every merge, spread being best ask minus best
bid (§8: bids [[100,5],[99,3]] and asks [[101,2],[102,4]] give spread 1.0);
with an empty side the spread stays 0 as in the fallback literal. -/
def OrderBook.calculate_spread (ob : OrderBook) : OrderBook :=
  match ob.bids.head?, ob.asks.head? with
  | some best_bid, some best_ask => { ob with spread := best_ask.price - best_bid.price }
  | _, _ => { ob with spread := 0 }

/-- The empty order book: `OrderBook::new(symbol)` (in the missing
`market_data.rs`) or, should that fail, the in-src fallback literal of
`process_order_book_update` — both give a book with empty sides. -/
def OrderBook.emptyFor (symbol : String) (now : Nat) : OrderBook where
  symbol := symbol
  bids := []
  asks := []
  timestamp := now
  spread := 0
  sequence_number := 0

/-- `DataSource` (stock_trading.rs). -/
inductive DataSource where
  | webSocket
  | http
  | mock
  | cache
deriving DecidableEq, Repr

/-- `CachedMarketData` (stock_trading.rs). -/
structure CachedMarketData where
  data : MarketData
  cached_at : Nat
  source : DataSource
  access_count : Nat
  last_accessed : Nat
deriving DecidableEq, Repr

/-- `DataEvent` (stock_trading.rs). -/
inductive DataEvent where
  | marketDataReceived (d : MarketData)
  | historicalDataReceived (symbol : String) (candles : List Candle)
  | orderBookUpdated (symbol : String) (book : OrderBook)
  | tradeReceived (t : TradeUpdate)
  | connectionStatusChanged (connected : Bool)
  | cacheUpdated (symbol : String)
  | cacheCleanupCompleted
  | symbolSubscribed (symbol : String)
  | symbolUnsubscribed (symbol : String)
  | dataSourceChanged (source : String)
  | refreshCompleted
  | errorOccurred (message : String)
deriving DecidableEq, Repr

/-- `DataService` (stock_trading.rs), restricted to the state the claims
reach.  Omitted fields are the entity handles (HTTP client, attached
websocket / mock services, error handler), the background task handles, the
auto-refresh configuration and the historical tier, none of which the
claimed operations read or write except through the explicit `wsCall`
parameter below. -/
structure DataService where
  cache : List (String × CachedMarketData)
  order_book_cache : List (String × OrderBook)
  cache_duration : Nat
  use_mock_data : Bool
  subscribed_symbols : List String
  websocket_message_cache : List (String × (Nat × Nat))
  max_message_age : Nat
deriving DecidableEq, Repr

/-- `DataService::new` (stock_trading.rs), the modelled fields: a 60 s
snapshot TTL and a 5 s websocket-message deduplication window. -/
def DataService.new : DataService where
  cache := []
  order_book_cache := []
  cache_duration := 60
  use_mock_data := true
  subscribed_symbols := []
  websocket_message_cache := []
  max_message_age := 5

/-- `DataService::subscribe_to_symbol` (stock_trading.rs).  `wsCall` is the
outcome of the attached streaming client's `subscribe_to_symbol` call, which
the source propagates with `?`; `.ok ()` also models the case of no attached
client.  Note the symbol is inserted before that call is made. -/
def DataService.subscribe_to_symbol (ds : DataService) (symbol : String)
    (wsCall : Except String Unit) :
    DataService × Except String Unit × List DataEvent :=
  if symbol ∈ ds.subscribed_symbols then
    (ds, .ok (), [])
  else
    let ds := { ds with subscribed_symbols := symbol :: ds.subscribed_symbols }
    match wsCall with
    | .error e => (ds, .error e, [])
    | .ok _ => (ds, .ok (), [.symbolSubscribed symbol])

/-- `DataService::unsubscribe_from_symbol` (stock_trading.rs): a no-op
success when `HashSet::remove` returns false. -/
def DataService.unsubscribe_from_symbol (ds : DataService) (symbol : String)
    (wsCall : Except String Unit) :
    DataService × Except String Unit × List DataEvent :=
  if symbol ∈ ds.subscribed_symbols then
    let ds := { ds with subscribed_symbols := ds.subscribed_symbols.erase symbol }
    match wsCall with
    | .error e => (ds, .error e, [])
    | .ok _ => (ds, .ok (), [.symbolUnsubscribed symbol])
  else
    (ds, .ok (), [])

/-- What `DataService::get_market_data` does after the cache probe: a cache
hit returns a ready task with the cached value; otherwise a fetch task is
started against the configured backing source. -/
inductive FetchOutcome where
  | cachedHit (d : MarketData)
  | fetchMock
  | fetchLive
deriving DecidableEq, Repr

/-- `FetchOutcome` is a fetch (not a cache hit). -/
def FetchOutcome.isFetch : FetchOutcome → Bool
  | .cachedHit _ => false
  | .fetchMock => true
  | .fetchLive => true

/-- `DataService::get_market_data` (stock_trading.rs): bump the access
metadata, serve the cached snapshot while its age is below the TTL,
otherwise fetch from the configured source. -/
def DataService.get_market_data (ds0 : DataService) (symbol : String)
    (now : Nat) : DataService × FetchOutcome :=
  match alistLookup symbol ds0.cache with
  | some cached =>
    let bumped := { cached with
      access_count := cached.access_count + 1
      last_accessed := now }
    let ds := { ds0 with cache := alistInsert symbol bumped ds0.cache }
    if now - cached.cached_at < ds.cache_duration then
      (ds, .cachedHit cached.data)
    else if ds.use_mock_data then (ds, .fetchMock) else (ds, .fetchLive)
  | none =>
    if ds0.use_mock_data then (ds0, .fetchMock) else (ds0, .fetchLive)

/-- The Bool form of `validate_market_data`'s bid/ask check: fails when both
are present and `bid >= ask`. -/
def bidAskInvalid (d : MarketData) : Bool :=
  match d.bid, d.ask with
  | some bid, some ask => decide (ask ≤ bid)
  | _, _ => false

/-- `DataService::validate_market_data` (stock_trading.rs): symbol non-empty,
price non-negative, bid < ask when both present, day high ≥ day low. -/
def DataService.validate_market_data (d : MarketData) : Except String MarketData :=
  if d.symbol = "" then .error "Symbol cannot be empty"
  else if d.current_price < 0 then .error "Price cannot be negative"
  else if bidAskInvalid d then .error "Bid price must be less than ask price"
  else if d.day_high < d.day_low then .error "Day high cannot be less than day low"
  else .ok d

/-- `DataService::cache_market_data` (stock_trading.rs): validate, then
insert with metadata and emit `MarketDataReceived`; a failing record is
never inserted and the error propagates (to be logged by the caller). -/
def DataService.cache_market_data (ds : DataService) (d : MarketData)
    (source : DataSource) (now : Nat) :
    DataService × Except String (List DataEvent) :=
  match DataService.validate_market_data d with
  | .error e => (ds, .error e)
  | .ok validated_data =>
    let entry : CachedMarketData :=
      { data := validated_data
        cached_at := now
        source := source
        access_count := 1
        last_accessed := now }
    ({ ds with cache := alistInsert validated_data.symbol entry ds.cache },
      .ok [.marketDataReceived validated_data])

/-- The `MarketData` literal built in `DataService::process_quote_update`
(stock_trading.rs). -/
def quoteToMarketData (quote : QuoteUpdate) : MarketData where
  symbol := quote.symbol
  current_price := quote.last_price
  change := quote.change
  change_percent := quote.change_percent
  volume := quote.volume
  market_cap := none
  high_52w := none
  low_52w := none
  timestamp := quote.timestamp
  market_status := .open_
  previous_close := quote.open_
  day_high := quote.high
  day_low := quote.low
  average_volume := none
  bid := some quote.bid
  ask := some quote.ask
  bid_size := some quote.bid_size
  ask_size := some quote.ask_size

/-- `DataService::process_quote_update` (stock_trading.rs). -/
def DataService.process_quote_update (ds : DataService) (quote : QuoteUpdate)
    (now : Nat) : DataService × Except String (List DataEvent) :=
  DataService.cache_market_data ds (quoteToMarketData quote) .webSocket now

/-- `DataService::process_trade_update` (stock_trading.rs): refresh the
cached snapshot in place if one exists; otherwise a silent no-op. -/
def DataService.process_trade_update (ds : DataService) (trade : TradeUpdate)
    (now : Nat) : DataService × Except String (List DataEvent) :=
  match alistLookup trade.symbol ds.cache with
  | some cached =>
    let d := { cached.data with
      current_price := trade.price
      volume := cached.data.volume + trade.size
      timestamp := trade.timestamp }
    let cached := { cached with data := d, cached_at := now, source := .webSocket }
    ({ ds with cache := alistInsert trade.symbol cached ds.cache },
      .ok [.tradeReceived trade])
  | none => (ds, .ok [])

/-- The merge step of `DataService::process_order_book_update`
(stock_trading.rs): a snapshot replaces both sides verbatim; an incremental
update appends, stably re-sorts each side (bids by descending price, asks by
ascending price — `sort_by` with `partial_cmp`), and truncates each side to
the top 20 levels. -/
def mergeOrderBookSides (book : OrderBook) (u : OrderBookUpdate) : OrderBook :=
  if u.is_snapshot then
    { book with bids := u.bids, asks := u.asks }
  else
    let bids := (book.bids ++ u.bids).mergeSort fun a b => decide (b.price ≤ a.price)
    let asks := (book.asks ++ u.asks).mergeSort fun a b => decide (a.price ≤ b.price)
    { book with bids := bids.take 20, asks := asks.take 20 }

/-- `DataService::process_order_book_update` (stock_trading.rs): take the
cached book (or an empty one), merge, stamp timestamp and sequence number,
recompute the spread, cache the result and emit `OrderBookUpdated`. -/
def DataService.process_order_book_update (ds : DataService)
    (u : OrderBookUpdate) (now : Nat) : DataService × List DataEvent :=
  let book := (alistLookup u.symbol ds.order_book_cache).getD
    (OrderBook.emptyFor u.symbol now)
  let book := mergeOrderBookSides book u
  let book := { book with timestamp := u.timestamp, sequence_number := u.sequence }
  let book := book.calculate_spread
  ({ ds with order_book_cache := alistInsert u.symbol book ds.order_book_cache },
    [.orderBookUpdated u.symbol book])

/-- Outcome of `DataService::handle_websocket_message`:
`skippedOldSequence` is the early `return Ok(())` for a non-increasing
per-symbol sequence number; `processed` carries the events the typed
processing emitted. -/
inductive DSHandled where
  | skippedOldSequence
  | processed (events : List DataEvent)
deriving DecidableEq, Repr

/-- The `match message.message_type` body of
`DataService::handle_websocket_message` (stock_trading.rs): decode the typed
payload and apply it; decode and validation errors propagate. -/
def DataService.process_typed_message (ds : DataService)
    (m : WebSocketMessage) (now : Nat) :
    DataService × Except String DSHandled :=
  match m.message_type with
  | .quote =>
    match m.symbol with
    | some _ =>
      match m.data.decodeQuote with
      | .error e => (ds, .error e)
      | .ok quote =>
        match DataService.process_quote_update ds quote now with
        | (ds, .error e) => (ds, .error e)
        | (ds, .ok events) => (ds, .ok (.processed events))
    | none => (ds, .ok (.processed []))
  | .trade =>
    match m.symbol with
    | some _ =>
      match m.data.decodeTrade with
      | .error e => (ds, .error e)
      | .ok trade =>
        match DataService.process_trade_update ds trade now with
        | (ds, .error e) => (ds, .error e)
        | (ds, .ok events) => (ds, .ok (.processed events))
    | none => (ds, .ok (.processed []))
  | .orderBook =>
    match m.symbol with
    | some _ =>
      match m.data.decodeBook with
      | .error e => (ds, .error e)
      | .ok u =>
        match DataService.process_order_book_update ds u now with
        | (ds, events) => (ds, .ok (.processed events))
    | none => (ds, .ok (.processed []))
  | _ => (ds, .ok (.processed []))

/-- `DataService::handle_websocket_message` (stock_trading.rs): per-symbol
sequence-number deduplication (a message whose sequence is not strictly
greater than the recorded one is dropped with `Ok`), stale-entry cleanup,
cache update, then typed processing.  `SystemTime::elapsed` succeeds only
when the recorded time is not in the future. -/
def DataService.handle_websocket_message (ds0 : DataService)
    (m : WebSocketMessage) (now : Nat) :
    DataService × Except String DSHandled :=
  match m.symbol, m.sequence with
  | some symbol, some sequence =>
    match alistLookup symbol ds0.websocket_message_cache with
    | some (cached_sequence, cached_time) =>
      if sequence ≤ cached_sequence then
        (ds0, .ok .skippedOldSequence)
      else
        let ds1 :=
          if cached_time ≤ now ∧ ds0.max_message_age < now - cached_time then
            { ds0 with websocket_message_cache :=
                alistErase symbol ds0.websocket_message_cache }
          else ds0
        let cache2 := alistInsert symbol (sequence, now) ds1.websocket_message_cache
        let ds2 := { ds1 with websocket_message_cache := cache2 }
        DataService.process_typed_message ds2 m now
    | none =>
      let cache2 := alistInsert symbol (sequence, now) ds0.websocket_message_cache
      let ds2 := { ds0 with websocket_message_cache := cache2 }
      DataService.process_typed_message ds2 m now
  | _, _ => DataService.process_typed_message ds0 m now

/-! ## Concrete instances used by witnesses and counterexamples -/

/-- A well-formed quote update for "AAPL". -/
def sampleQuote : QuoteUpdate where
  symbol := "AAPL"
  bid := 150
  ask := 151
  bid_size := 1
  ask_size := 1
  last_price := 150
  last_size := 1
  volume := 10
  timestamp := 0
  change := 0
  change_percent := 0
  high := 151
  low := 149
  open_ := 150

/-- A cache entry captured at instant 0 from the sample quote. -/
def sampleCachedEntry : CachedMarketData where
  data := quoteToMarketData sampleQuote
  cached_at := 0
  source := .webSocket
  access_count := 1
  last_accessed := 0

/-- A coordinator holding one fresh snapshot for "AAPL". -/
def sampleCachedState : DataService :=
  { DataService.new with cache := [("AAPL", sampleCachedEntry)] }

/-- A market-data record that passes `validate_market_data` although both its
bid and its ask are negative: the source checks `bid < ask` when both are
present but never that either is positive. -/
def negativeBidData : MarketData :=
  { quoteToMarketData sampleQuote with bid := some (-2), ask := some (-1) }

/-- A market-data record rejected by `validate_market_data` (empty symbol). -/
def emptySymbolData : MarketData :=
  { quoteToMarketData sampleQuote with symbol := "" }

/-- An order-book snapshot whose bid side arrives unsorted and whose best
bid does not undercut its best ask. -/
def crossedSnapshotUpdate : OrderBookUpdate where
  symbol := "AAPL"
  bids := [{ price := 100, quantity := 5, side := .buy },
           { price := 101, quantity := 3, side := .buy }]
  asks := [{ price := 99, quantity := 2, side := .sell }]
  timestamp := 0
  sequence := 1
  is_snapshot := true

/-- A small incremental order-book update. -/
def sampleIncrementalUpdate : OrderBookUpdate where
  symbol := "AAPL"
  bids := [{ price := 100, quantity := 5, side := .buy }]
  asks := [{ price := 101, quantity := 2, side := .sell }]
  timestamp := 0
  sequence := 1
  is_snapshot := false

/-- An active quote subscription for "AAPL" created at instant 0. -/
def sampleSubscription : WebSocketSubscription where
  symbol := "AAPL"
  message_types := [.quote]
  subscribed_at := 0
  is_active := true
  subscription_id := "AAPL_0"

/-- A streaming client already subscribed to "AAPL". -/
def subscribedWSState : WebSocketService :=
  { WebSocketService.new with subscriptions := [("AAPL", sampleSubscription)] }

/-- A streaming client whose sequence tracker has recorded sequence 5 for
"AAPL". -/
def seqTrackedWSState : WebSocketService :=
  { WebSocketService.new with message_sequence_tracker := [("AAPL", 5)] }

/-- A coordinator whose websocket-message cache has recorded sequence 5 for
"AAPL" at instant 0. -/
def seqCachedDSState : DataService :=
  { DataService.new with websocket_message_cache := [("AAPL", (5, 0))] }

/-- A well-formed quote wire message for "AAPL" carrying sequence 5. -/
def staleQuoteMessage : WebSocketMessage where
  message_type := .quote
  symbol := some "AAPL"
  data := .quote sampleQuote
  timestamp := 1
  sequence := some 5

/-- A well-formed quote wire message for "AAPL" carrying sequence 1. -/
def freshQuoteMessage : WebSocketMessage where
  message_type := .quote
  symbol := some "AAPL"
  data := .quote sampleQuote
  timestamp := 0
  sequence := some 1

/-! ## Claims -/

/-- C6: for every `AuthenticationFailed` error passed to
`NetworkErrorHandler::handle_network_error`, and for every policy
configuration (`auto_retry_enabled`, `fallback_to_cache_enabled` and the
rest of the handler state are universally quantified), the returned strategy
is `ShowError` — hence never `RetryWithBackoff`, `QueueRequest` or
`FallbackToCache`: authentication failures are never retried and always
surfaced. -/
theorem c6_auth_failures_always_surfaced (h : NetworkErrorHandler)
    (reason : String) (now : Nat) :
    (h.handle_network_error (.authenticationFailed reason) now).2 =
      .showError "Authentication failed. Please check your credentials." := rfl

/-- C4: `RateLimiter::check_rate_limit` first evicts timestamps older than
the window; if at least the configured limit of timestamps remain it fails
with a rate-limit error whose retry-after is the time until the oldest
timestamp exits the window (hence at most the window), otherwise it records
the new timestamp and succeeds.  With limit 3 per 1-second window, three
calls succeed, the 4th within the window fails with retry-after ≤ 1 s, and a
call after the window has elapsed succeeds again. -/
theorem c4_rate_limiter_check_spec :
    (∀ (s : RateLimiter) (now : Nat),
      (s.check_rate_limit now).1.request_timestamps =
        (if s.max_requests_per_window ≤
            (evictOldTimestamps s.window_duration now s.request_timestamps).length
         then evictOldTimestamps s.window_duration now s.request_timestamps
         else evictOldTimestamps s.window_duration now s.request_timestamps ++ [now])
      ∧ (s.check_rate_limit now).2 =
        (if s.max_requests_per_window ≤
            (evictOldTimestamps s.window_duration now s.request_timestamps).length
         then Except.error (NetworkError.rateLimitExceeded
            (rateLimitRetryAfter s.window_duration now
              (evictOldTimestamps s.window_duration now s.request_timestamps))
            s.max_requests_per_window)
         else Except.ok ())
      ∧ rateLimitRetryAfter s.window_duration now
          (evictOldTimestamps s.window_duration now s.request_timestamps) ≤
          s.window_duration)
    ∧ (let c1 := (RateLimiter.new 3 1).check_rate_limit 0
       let c2 := c1.1.check_rate_limit 0
       let c3 := c2.1.check_rate_limit 0
       let c4 := c3.1.check_rate_limit 0
       let c5 := c4.1.check_rate_limit 2
       c1.2 = .ok () ∧ c2.2 = .ok () ∧ c3.2 = .ok ()
       ∧ (∃ ra, c4.2 = Except.error (NetworkError.rateLimitExceeded ra 3) ∧ ra ≤ 1)
       ∧ c5.2 = .ok ()) := by
  constructor
  · intro s now
    refine ⟨?_, ?_, ?_⟩
    · simp only [RateLimiter.check_rate_limit]
      split <;> rfl
    · simp only [RateLimiter.check_rate_limit]
      split <;> rfl
    · unfold rateLimitRetryAfter
      cases (evictOldTimestamps s.window_duration now s.request_timestamps).head? <;>
        simp [Nat.sub_le]
  · exact ⟨rfl, rfl, rfl, ⟨1, rfl, by decide⟩, rfl⟩

theorem iterate_failures_config_fixed (s : RateLimiter) (n : Nat) :
    (s.iterate_failures n).backoff_multiplier = s.backoff_multiplier ∧
    (s.iterate_failures n).max_backoff = s.max_backoff := by
  induction n with
  | zero => exact ⟨rfl, rfl⟩
  | succ n ih =>
    simpa [RateLimiter.iterate_failures, RateLimiter.record_failure] using ih

theorem iterate_failures_le_max (s : RateLimiter)
    (hb : s.current_backoff ≤ s.max_backoff) (n : Nat) :
    (s.iterate_failures n).current_backoff ≤ s.max_backoff := by
  induction n with
  | zero => exact hb
  | succ n ih =>
    have hmax := (iterate_failures_config_fixed s n).2
    calc (s.iterate_failures (n + 1)).current_backoff
        = min ((s.iterate_failures n).current_backoff *
            (s.iterate_failures n).backoff_multiplier)
            (s.iterate_failures n).max_backoff := rfl
      _ ≤ (s.iterate_failures n).max_backoff := min_le_right _ _
      _ = s.max_backoff := hmax

/-- C5: along any run of consecutive `RateLimiter::record_failure` calls
(no intervening `record_success`), the current backoff is non-decreasing
from each failure to the next and always bounded by the configured maximum
backoff; `record_success` resets the consecutive-failure counter to 0 and
the backoff to its 1-second baseline.  The hypotheses hold for every
constructed limiter: `RateLimiter::new` fixes the multiplier at 2 and starts
the backoff at 1 s ≤ 300 s. -/
theorem c5_backoff_monotone_bounded (s : RateLimiter)
    (hm : 1 ≤ s.backoff_multiplier) (hb : s.current_backoff ≤ s.max_backoff) :
    (∀ n, (s.iterate_failures n).current_backoff ≤
        (s.iterate_failures (n + 1)).current_backoff)
    ∧ (∀ n, (s.iterate_failures n).current_backoff ≤ s.max_backoff)
    ∧ (∀ n, ((s.iterate_failures n).record_success).consecutive_failures = 0
        ∧ ((s.iterate_failures n).record_success).current_backoff = 1) := by
  refine ⟨fun n => ?_, iterate_failures_le_max s hb, fun n => ⟨rfl, rfl⟩⟩
  have h1 := iterate_failures_le_max s hb n
  have h2 := (iterate_failures_config_fixed s n).1
  have h3 := (iterate_failures_config_fixed s n).2
  have hstep : (s.iterate_failures (n + 1)).current_backoff =
      min ((s.iterate_failures n).current_backoff *
        (s.iterate_failures n).backoff_multiplier)
        (s.iterate_failures n).max_backoff := rfl
  rw [hstep]
  refine le_min ?_ ?_
  · exact Nat.le_mul_of_pos_right _ (by rw [h2]; exact Nat.lt_of_lt_of_le Nat.zero_lt_one hm)
  · rw [h3]; exact h1

/-- C5 witness: the general theorem applied to the handler's own limiter
configuration `RateLimiter::new(100, 60)` after five consecutive failures. -/
theorem c5_backoff_witness :
    ((RateLimiter.new 100 60).iterate_failures 5).current_backoff ≤
      ((RateLimiter.new 100 60).iterate_failures 6).current_backoff
    ∧ ((RateLimiter.new 100 60).iterate_failures 5).current_backoff ≤
      (RateLimiter.new 100 60).max_backoff
    ∧ (((RateLimiter.new 100 60).iterate_failures 5).record_success).current_backoff = 1 :=
  ⟨(c5_backoff_monotone_bounded (RateLimiter.new 100 60) (by decide) (by decide)).1 5,
   (c5_backoff_monotone_bounded (RateLimiter.new 100 60) (by decide) (by decide)).2.1 5,
   ((c5_backoff_monotone_bounded (RateLimiter.new 100 60) (by decide) (by decide)).2.2 5).2⟩

/-- C7: the coordinator's `subscribe_to_symbol` / `unsubscribe_from_symbol`
are idempotent.  Subscribing twice in succession leaves exactly one active
subscription for the symbol and the second call returns success
unconditionally (the symbol is recorded before the streaming-client call, so
this holds even if that call failed the first time); the first call returns
success whenever the streaming-client leg does (`wsCall`, which also models
the no-attached-client case).  Unsubscribing a symbol that is not subscribed
is a no-op success.  The `Nodup` hypothesis is the `HashSet` representation
invariant. -/
theorem c7_subscribe_unsubscribe_idempotent :
    (∀ (ds : DataService) (symbol : String) (ws1 ws2 : Except String Unit),
      ds.subscribed_symbols.Nodup →
      ((ds.subscribe_to_symbol symbol ws1).1.subscribe_to_symbol symbol ws2).2.1 = .ok ()
      ∧ ((ds.subscribe_to_symbol symbol ws1).1.subscribe_to_symbol symbol
          ws2).1.subscribed_symbols.count symbol = 1
      ∧ (ws1 = .ok () → (ds.subscribe_to_symbol symbol ws1).2.1 = .ok ()))
    ∧ (∀ (ds : DataService) (symbol : String) (ws : Except String Unit),
      symbol ∉ ds.subscribed_symbols →
      ds.unsubscribe_from_symbol symbol ws = (ds, .ok (), [])) := by
  constructor
  · intro ds symbol ws1 ws2 hnd
    by_cases hmem : symbol ∈ ds.subscribed_symbols
    · refine ⟨?_, ?_, ?_⟩
      · simp [DataService.subscribe_to_symbol, hmem]
      · simp only [DataService.subscribe_to_symbol, if_pos hmem]
        exact List.count_eq_one_of_mem hnd hmem
      · intro _
        simp [DataService.subscribe_to_symbol, hmem]
    · have hstate : (ds.subscribe_to_symbol symbol ws1).1 =
          { ds with subscribed_symbols := symbol :: ds.subscribed_symbols } := by
        cases ws1 <;> simp [DataService.subscribe_to_symbol, hmem]
      refine ⟨?_, ?_, ?_⟩
      · rw [hstate]
        simp [DataService.subscribe_to_symbol]
      · rw [hstate]
        simp only [DataService.subscribe_to_symbol, List.mem_cons_self, if_pos]
        rw [List.count_cons_self]
        rw [List.count_eq_zero.mpr hmem]
      · intro hws
        subst hws
        simp [DataService.subscribe_to_symbol, hmem]
  · intro ds symbol ws hmem
    simp [DataService.unsubscribe_from_symbol, hmem]

/-- C7 witness: the theorem at the freshly constructed coordinator. -/
theorem c7_subscribe_witness :
    ((DataService.new.subscribe_to_symbol "AAPL" (.ok ())).1.subscribe_to_symbol
        "AAPL" (.ok ())).2.1 = .ok ()
    ∧ ((DataService.new.subscribe_to_symbol "AAPL" (.ok ())).1.subscribe_to_symbol
        "AAPL" (.ok ())).1.subscribed_symbols.count "AAPL" = 1
    ∧ DataService.new.unsubscribe_from_symbol "MSFT" (.ok ()) =
        (DataService.new, .ok (), []) :=
  ⟨(c7_subscribe_unsubscribe_idempotent.1 DataService.new "AAPL" (.ok ()) (.ok ())
      List.nodup_nil).1,
   (c7_subscribe_unsubscribe_idempotent.1 DataService.new "AAPL" (.ok ()) (.ok ())
      List.nodup_nil).2.1,
   c7_subscribe_unsubscribe_idempotent.2 DataService.new "MSFT" (.ok ())
      (List.not_mem_nil "MSFT")⟩

/-- C9: while a cached snapshot's age is below the TTL, `get_market_data`
serves it without fetching — two calls within the TTL with no intervening
update return the identical cached record and neither starts a fetch — and a
fetch is started exactly when no entry exists or the entry's age has reached
the TTL. -/
theorem c9_cache_freshness :
    (∀ (ds : DataService) (symbol : String) (now1 now2 : Nat)
        (entry : CachedMarketData),
      alistLookup symbol ds.cache = some entry →
      now1 - entry.cached_at < ds.cache_duration →
      now2 - entry.cached_at < ds.cache_duration →
      (ds.get_market_data symbol now1).2 = .cachedHit entry.data
      ∧ ((ds.get_market_data symbol now1).1.get_market_data symbol now2).2 =
          .cachedHit entry.data)
    ∧ (∀ (ds : DataService) (symbol : String) (now : Nat),
      (ds.get_market_data symbol now).2.isFetch = true ↔
        (alistLookup symbol ds.cache = none ∨
          ∃ e, alistLookup symbol ds.cache = some e ∧
            ds.cache_duration ≤ now - e.cached_at)) := by
  constructor
  · intro ds symbol now1 now2 entry h h1 h2
    refine ⟨?_, ?_⟩ <;>
      simp [DataService.get_market_data, h, h1, alistLookup_insert, h2]
  · intro ds symbol now
    cases h : alistLookup symbol ds.cache with
    | none =>
      cases hmock : ds.use_mock_data <;>
        simp [DataService.get_market_data, h, hmock, FetchOutcome.isFetch]
    | some e =>
      by_cases hfresh : now - e.cached_at < ds.cache_duration
      · simp [DataService.get_market_data, h, hfresh, FetchOutcome.isFetch]
      · have hstale : ds.cache_duration ≤ now - e.cached_at := Nat.le_of_not_lt hfresh
        cases hmock : ds.use_mock_data <;>
          simp [DataService.get_market_data, h, hfresh, hmock, FetchOutcome.isFetch,
            hstale]

/-- C9 witness: a coordinator holding one fresh entry, probed twice inside
the TTL; and the fetch-condition equivalence at the empty coordinator. -/
theorem c9_cache_witness :
    (sampleCachedState.get_market_data "AAPL" 10).2 =
      .cachedHit sampleCachedEntry.data
    ∧ ((sampleCachedState.get_market_data "AAPL" 10).1.get_market_data
        "AAPL" 20).2 = .cachedHit sampleCachedEntry.data :=
  c9_cache_freshness.1 sampleCachedState "AAPL" 10 20 sampleCachedEntry rfl
    (by decide) (by decide)

/-- C8 (amended): every record accepted into the coordinator's snapshot
cache satisfies symbol non-empty, price ≥ 0, bid < ask whenever both are
present, and day_high ≥ day_low — the conditions `validate_market_data`
actually checks; positivity of bid and ask is NOT among them (see the
counterexample).  A record that fails validation is never cached: the
coordinator state is unchanged and the error propagates. -/
theorem c8_cache_validation :
    (∀ (ds : DataService) (d : MarketData) (src : DataSource) (now : Nat)
        (e : String),
      DataService.validate_market_data d = .error e →
      (ds.cache_market_data d src now).1 = ds)
    ∧ (∀ (d vd : MarketData), DataService.validate_market_data d = .ok vd →
      vd.symbol ≠ "" ∧ 0 ≤ vd.current_price
      ∧ (∀ b a, vd.bid = some b → vd.ask = some a → b < a)
      ∧ vd.day_low ≤ vd.day_high) := by
  constructor
  · intro ds d src now e h
    simp [DataService.cache_market_data, h]
  · intro d vd h
    by_cases h1 : d.symbol = ""
    · simp [DataService.validate_market_data, h1] at h
    · by_cases h2 : d.current_price < 0
      · simp [DataService.validate_market_data, h1, h2] at h
      · by_cases h3 : bidAskInvalid d = true
        · simp [DataService.validate_market_data, h1, h2, h3] at h
        · by_cases h4 : d.day_high < d.day_low
          · simp [DataService.validate_market_data, h1, h2, h3, h4] at h
          · have hd : vd = d := by
              simp [DataService.validate_market_data, h1, h2, h3, h4] at h
              exact h.symm
            subst hd
            refine ⟨h1, not_lt.mp h2, ?_, not_lt.mp h4⟩
            intro b a hb ha
            unfold bidAskInvalid at h3
            rw [hb, ha] at h3
            simp at h3
            exact h3

/-- C8 witness: the theorem at a rejected record (empty symbol, coordinator
unchanged) and at an accepted record (the sample quote's snapshot). -/
theorem c8_cache_validation_witness :
    (sampleCachedState.cache_market_data emptySymbolData .webSocket 0).1 =
      sampleCachedState
    ∧ ((quoteToMarketData sampleQuote).symbol ≠ ""
      ∧ 0 ≤ (quoteToMarketData sampleQuote).current_price
      ∧ (∀ b a, (quoteToMarketData sampleQuote).bid = some b →
          (quoteToMarketData sampleQuote).ask = some a → b < a)
      ∧ (quoteToMarketData sampleQuote).day_low ≤
          (quoteToMarketData sampleQuote).day_high) :=
  ⟨c8_cache_validation.1 sampleCachedState emptySymbolData .webSocket 0
      "Symbol cannot be empty" rfl,
   c8_cache_validation.2 (quoteToMarketData sampleQuote)
      (quoteToMarketData sampleQuote) rfl⟩

/-- C8 counterexample: the claim "every quote record accepted into the
coordinator's snapshot cache satisfies bid > 0, ask > 0" is false —
`negativeBidData` has bid = −2 and ask = −1, passes `validate_market_data`
unchanged, and is cached. -/
theorem c8_cache_validation_counterexample :
    DataService.validate_market_data negativeBidData = .ok negativeBidData
    ∧ alistLookup "AAPL"
        ((DataService.new.cache_market_data negativeBidData .webSocket 0).1.cache) =
      some { data := negativeBidData, cached_at := 0, source := .webSocket,
             access_count := 1, last_accessed := 0 }
    ∧ negativeBidData.bid = some (-2)
    ∧ ¬ (0 : Int) < -2 :=
  ⟨rfl, by decide, by decide, by decide⟩

theorem calculate_spread_bids (ob : OrderBook) :
    (ob.calculate_spread).bids = ob.bids := by
  rcases h1 : ob.bids.head? with _ | bb <;> rcases h2 : ob.asks.head? with _ | ba <;>
    simp [OrderBook.calculate_spread, h1, h2]

theorem calculate_spread_asks (ob : OrderBook) :
    (ob.calculate_spread).asks = ob.asks := by
  rcases h1 : ob.bids.head? with _ | bb <;> rcases h2 : ob.asks.head? with _ | ba <;>
    simp [OrderBook.calculate_spread, h1, h2]

theorem sorted_mergeSort_by_price (l : List OrderBookEntry)
    (key : OrderBookEntry → Int) :
    List.Sorted (fun x y : OrderBookEntry => key y ≤ key x)
      (l.mergeSort fun a b => decide (key b ≤ key a)) := by
  have h := @List.sorted_mergeSort OrderBookEntry
    (fun a b : OrderBookEntry => decide (key b ≤ key a))
    (fun a b c h1 h2 => by
      simp only [decide_eq_true_eq] at h1 h2 ⊢
      exact le_trans h2 h1)
    (fun a b => by
      simp only [Bool.or_eq_true, decide_eq_true_eq]
      exact le_total (key b) (key a))
    l
  exact h.imp fun hab => by simpa using hab

theorem sorted_mergeSort_asc_price (l : List OrderBookEntry) :
    List.Sorted (fun x y : OrderBookEntry => x.price ≤ y.price)
      (l.mergeSort fun a b => decide (a.price ≤ b.price)) := by
  have h := @List.sorted_mergeSort OrderBookEntry
    (fun a b : OrderBookEntry => decide (a.price ≤ b.price))
    (fun a b c h1 h2 => by
      simp only [decide_eq_true_eq] at h1 h2 ⊢
      exact le_trans h1 h2)
    (fun a b => by
      simp only [Bool.or_eq_true, decide_eq_true_eq]
      exact le_total a.price b.price)
    l
  exact h.imp fun hab => by simpa using hab

theorem mergeOrderBookSides_incremental (book : OrderBook) (u : OrderBookUpdate)
    (h : u.is_snapshot = false) :
    List.Sorted (fun x y : OrderBookEntry => y.price ≤ x.price)
      (mergeOrderBookSides book u).bids
    ∧ List.Sorted (fun x y : OrderBookEntry => x.price ≤ y.price)
      (mergeOrderBookSides book u).asks
    ∧ (mergeOrderBookSides book u).bids.length ≤ 20
    ∧ (mergeOrderBookSides book u).asks.length ≤ 20 := by
  unfold mergeOrderBookSides
  rw [h]
  simp only [Bool.false_eq_true, if_false]
  refine ⟨?_, ?_, ?_, ?_⟩
  · exact ((sorted_mergeSort_by_price (book.bids ++ u.bids) (·.price)).sublist
      (List.take_sublist 20 _))
  · exact ((sorted_mergeSort_asc_price (book.asks ++ u.asks)).sublist
      (List.take_sublist 20 _))
  · rw [List.length_take]; exact min_le_left _ _
  · rw [List.length_take]; exact min_le_left _ _

/-- C1 (amended): for every INCREMENTAL order-book merge performed by the
coordinator, the book stored in the cache has a bid list non-increasing by
price, an ask list non-decreasing by price, and at most 20 levels per side.
A snapshot merge copies the update's sides verbatim without re-sorting, and
best-bid < best-ask is not enforced on either path (see the
counterexample). -/
theorem c1_incremental_merge_sorted (ds : DataService) (u : OrderBookUpdate)
    (now : Nat) (hsnap : u.is_snapshot = false) :
    ∃ b, alistLookup u.symbol
        ((ds.process_order_book_update u now).1.order_book_cache) = some b
      ∧ List.Sorted (fun x y : OrderBookEntry => y.price ≤ x.price) b.bids
      ∧ List.Sorted (fun x y : OrderBookEntry => x.price ≤ y.price) b.asks
      ∧ b.bids.length ≤ 20 ∧ b.asks.length ≤ 20 := by
  have hm := mergeOrderBookSides_incremental
    ((alistLookup u.symbol ds.order_book_cache).getD (OrderBook.emptyFor u.symbol now))
    u hsnap
  unfold DataService.process_order_book_update
  refine ⟨_, alistLookup_insert _ _ _, ?_, ?_, ?_, ?_⟩ <;>
    simp only [calculate_spread_bids, calculate_spread_asks] <;>
    first
      | exact hm.1
      | exact hm.2.1
      | exact hm.2.2.1
      | exact hm.2.2.2

/-- C1 witness: the amended theorem at a concrete incremental update against
the fresh coordinator. -/
theorem c1_incremental_merge_witness :
    ∃ b, alistLookup "AAPL"
        ((DataService.new.process_order_book_update sampleIncrementalUpdate
          0).1.order_book_cache) = some b
      ∧ List.Sorted (fun x y : OrderBookEntry => y.price ≤ x.price) b.bids
      ∧ List.Sorted (fun x y : OrderBookEntry => x.price ≤ y.price) b.asks
      ∧ b.bids.length ≤ 20 ∧ b.asks.length ≤ 20 :=
  c1_incremental_merge_sorted DataService.new sampleIncrementalUpdate 0 rfl

/-- C1 counterexample: the claim is false as stated for snapshot merges —
after merging `crossedSnapshotUpdate` the cached bid list [100, 101] is not
non-increasing and the best bid (100) is not below the best ask (99). -/
theorem c1_merge_counterexample :
    ∃ b, alistLookup "AAPL"
        ((DataService.new.process_order_book_update crossedSnapshotUpdate
          0).1.order_book_cache) = some b
      ∧ ¬ List.Sorted (fun x y : OrderBookEntry => y.price ≤ x.price) b.bids
      ∧ (∃ bb ba, b.bids.head? = some bb ∧ b.asks.head? = some ba
          ∧ ¬ bb.price < ba.price) := by
  refine ⟨{ symbol := "AAPL"
            bids := [{ price := 100, quantity := 5, side := .buy },
                     { price := 101, quantity := 3, side := .buy }]
            asks := [{ price := 99, quantity := 2, side := .sell }]
            timestamp := 0
            spread := -1
            sequence_number := 1 }, ?_, ?_, ?_⟩
  · decide
  · decide
  · exact ⟨{ price := 100, quantity := 5, side := .buy },
      { price := 99, quantity := 2, side := .sell }, by decide, by decide, by decide⟩

theorem check_rate_limit_prunes (s : WebSocketService) (now : Nat) :
    (s.check_subscription_rate_limit now).1 =
      { s with subscription_timestamps := s.subscription_timestamps.filter fun t =>
          decide (t ≤ now) && decide (now - t < s.subscription_window) } := by
  simp only [WebSocketService.check_subscription_rate_limit]
  split
  · rfl
  split <;> rfl

theorem check_rate_limit_ok_count (s : WebSocketService) (now : Nat) :
    (s.check_subscription_rate_limit now).2 = .ok () →
    s.subscriptions.length < s.max_subscriptions_per_connection := by
  simp only [WebSocketService.check_subscription_rate_limit]
  split
  · intro h
    exact absurd h (by simp)
  split
  · intro h
    exact absurd h (by simp)
  · rename_i h1 h2
    intro hok
    exact Nat.lt_of_not_le h2

theorem alistInsert_length_le {κ β : Type} [DecidableEq κ] (k : κ) (v : β)
    (l : List (κ × β)) : (alistInsert k v l).length ≤ l.length + 1 := by
  simp only [alistInsert, List.length_cons]
  exact Nat.succ_le_succ (List.length_filter_le _ _)

/-- C10: whenever the streaming client's `subscribe_to_symbol` returns an
error (rate-limit window full, subscription-count ceiling, already
subscribed, or invalid subscription arguments), the subscriptions map is
unchanged, no new rate-limit timestamp is recorded (the timestamp list is
only ever pruned of expired entries, never extended), and no subscribe frame
is sent or buffered; and the operation never grows the subscription map
beyond the configured per-connection maximum. -/
theorem c10_subscribe_errors_leave_state (s : WebSocketService) (symbol : String)
    (types : List MessageType) (now : Nat) :
    (∀ e, (s.subscribe_to_symbol symbol types now).2 = .error e →
      (s.subscribe_to_symbol symbol types now).1.subscriptions = s.subscriptions
      ∧ (s.subscribe_to_symbol symbol types now).1.subscription_timestamps =
          s.subscription_timestamps.filter (fun t =>
            decide (t ≤ now) && decide (now - t < s.subscription_window))
      ∧ (s.subscribe_to_symbol symbol types now).1.sent_frames = s.sent_frames
      ∧ (s.subscribe_to_symbol symbol types now).1.message_buffer = s.message_buffer)
    ∧ (s.subscriptions.length ≤ s.max_subscriptions_per_connection →
      (s.subscribe_to_symbol symbol types now).1.subscriptions.length ≤
        s.max_subscriptions_per_connection) := by
  rcases hchk : s.check_subscription_rate_limit now with ⟨s1, r⟩
  have hs1 : s1 = { s with subscription_timestamps :=
      s.subscription_timestamps.filter (fun t =>
        decide (t ≤ now) && decide (now - t < s.subscription_window)) } := by
    have h := check_rate_limit_prunes s now
    rw [hchk] at h
    exact h
  constructor
  · intro e he
    simp only [WebSocketService.subscribe_to_symbol, hchk] at he ⊢
    cases r with
    | error e0 =>
      subst hs1
      exact ⟨rfl, rfl, rfl, rfl⟩
    | ok u =>
      cases u
      by_cases hal : (alistLookup symbol s1.subscriptions).isSome
      · simp only [hal, if_true] at he ⊢
        subst hs1
        exact ⟨rfl, rfl, rfl, rfl⟩
      · rcases hnew : WebSocketSubscription.new symbol types now with e1 | sub
        · simp only [hal, Bool.false_eq_true, if_false, hnew] at he ⊢
          subst hs1
          exact ⟨rfl, rfl, rfl, rfl⟩
        · exfalso
          simp [hal, hnew] at he
  · intro hb
    simp only [WebSocketService.subscribe_to_symbol, hchk]
    cases r with
    | error e0 =>
      subst hs1
      exact hb
    | ok u =>
      cases u
      have hcount := check_rate_limit_ok_count s now (by rw [hchk])
      by_cases hal : (alistLookup symbol s1.subscriptions).isSome
      · simp only [hal, if_true]
        subst hs1
        exact hb
      · rcases hnew : WebSocketSubscription.new symbol types now with e1 | sub
        · simp only [hal, Bool.false_eq_true, if_false, hnew]
          subst hs1
          exact hb
        · simp only [hal, Bool.false_eq_true, if_false, hnew]
          have hlen : (alistInsert symbol sub s1.subscriptions).length ≤
              s.subscriptions.length + 1 := by
            subst hs1
            exact alistInsert_length_le _ _ _
          have hfin : (alistInsert symbol sub s1.subscriptions).length ≤
              s.max_subscriptions_per_connection :=
            le_trans hlen (Nat.succ_le_of_lt hcount)
          split <;> exact hfin

/-- C10 witness: the theorem at an already-subscribed client, whose repeat
subscribe fails and leaves every modelled piece of state unchanged, plus the
subscription-count bound at that state. -/
theorem c10_subscribe_errors_witness :
    ((subscribedWSState.subscribe_to_symbol "AAPL" [.quote] 0).1.subscriptions =
        subscribedWSState.subscriptions
      ∧ (subscribedWSState.subscribe_to_symbol "AAPL" [.quote]
          0).1.subscription_timestamps =
        subscribedWSState.subscription_timestamps.filter (fun t =>
          decide (t ≤ 0) && decide (0 - t < subscribedWSState.subscription_window))
      ∧ (subscribedWSState.subscribe_to_symbol "AAPL" [.quote] 0).1.sent_frames =
        subscribedWSState.sent_frames
      ∧ (subscribedWSState.subscribe_to_symbol "AAPL" [.quote] 0).1.message_buffer =
        subscribedWSState.message_buffer)
    ∧ (subscribedWSState.subscribe_to_symbol "AAPL" [.quote]
        0).1.subscriptions.length ≤
      subscribedWSState.max_subscriptions_per_connection :=
  ⟨(c10_subscribe_errors_leave_state subscribedWSState "AAPL" [.quote] 0).1
      "Already subscribed to symbol: AAPL" rfl,
   (c10_subscribe_errors_leave_state subscribedWSState "AAPL" [.quote] 0).2
      (by decide)⟩

/-- C2 (amended): a data message whose per-symbol sequence number is not
strictly greater than the last recorded one for that symbol is still fully
processed by the STREAMING CLIENT — the ordering check only logs a warning,
and the message is dispatched to the registered handler and re-emitted as a
typed event (`dispatched true`) — but the COORDINATOR's
`handle_websocket_message` drops such a message: it returns success
immediately, touches no cache and emits nothing. -/
theorem bump_is_duplicate (s : WebSocketService) (m : WebSocketMessage)
    (now c : Nat) :
    WebSocketService.is_duplicate_message
      { s with messages_received_count := c } m now =
      s.is_duplicate_message m now := rfl

theorem bump_validate_order (s : WebSocketService) (m : WebSocketMessage)
    (c : Nat) :
    WebSocketService.validate_message_order
      { s with messages_received_count := c } m =
      s.validate_message_order m := rfl

theorem c2_out_of_order_handling :
    (∀ (s : WebSocketService) (m : WebSocketMessage) (now : Nat)
        (symbol : String) (sequence last : Nat),
      m.symbol = some symbol → m.sequence = some sequence →
      alistLookup symbol s.message_sequence_tracker = some last →
      sequence ≤ last →
      m.message_type ≠ .heartbeat →
      s.enable_message_ordering = true →
      s.is_duplicate_message m now = false →
      (s.data_quality_checks_enabled = true →
        WebSocketService.validate_message_quality m = .ok ()) →
      (s.handle_message m now).2 = .dispatched true)
    ∧ (∀ (ds : DataService) (m : WebSocketMessage) (now : Nat)
        (symbol : String) (sequence cached_sequence cached_time : Nat),
      m.symbol = some symbol → m.sequence = some sequence →
      alistLookup symbol ds.websocket_message_cache =
        some (cached_sequence, cached_time) →
      sequence ≤ cached_sequence →
      ds.handle_websocket_message m now = (ds, .ok .skippedOldSequence)) := by
  constructor
  · intro s m now symbol sequence last hsym hseq htrack hle hhb hord hndup hq
    have horder : s.validate_message_order m = false := by
      simp only [WebSocketService.validate_message_order, hsym, hseq, htrack,
        decide_eq_false_iff_not]
      omega
    by_cases hqc : s.data_quality_checks_enabled
    · simp [WebSocketService.handle_message, bump_is_duplicate,
        bump_validate_order, hhb, hndup, hord, horder, hqc, hq hqc]
    · simp [WebSocketService.handle_message, bump_is_duplicate,
        bump_validate_order, hhb, hndup, hord, horder, hqc]
  · intro ds m now symbol sequence cached_sequence cached_time hsym hseq hcache hle
    simp [DataService.handle_websocket_message, hsym, hseq, hcache, hle]

/-- C2 witness: the amended theorem at a tracked sequence 5 — the client
dispatches a replayed sequence-5 quote with the out-of-order flag, while the
coordinator drops the same message. -/
theorem c2_out_of_order_witness :
    (seqTrackedWSState.handle_message staleQuoteMessage 0).2 = .dispatched true
    ∧ seqCachedDSState.handle_websocket_message staleQuoteMessage 1 =
        (seqCachedDSState, .ok .skippedOldSequence) :=
  ⟨c2_out_of_order_handling.1 seqTrackedWSState staleQuoteMessage 0 "AAPL" 5 5
      rfl rfl (by decide) (by decide) (by decide) rfl (by decide)
      (fun _ => rfl),
   c2_out_of_order_handling.2 seqCachedDSState staleQuoteMessage 1 "AAPL" 5 5 0
      rfl rfl (by decide) (by decide)⟩

/-- C2 counterexample: the claim as stated is false at the coordinator — a
valid quote whose sequence (5) is not above the recorded one (5) is dropped:
the coordinator returns unchanged and nothing reaches its snapshot cache,
although the very same message is cached and re-emitted when no newer
sequence is recorded. -/
theorem c2_out_of_order_counterexample :
    seqCachedDSState.handle_websocket_message staleQuoteMessage 1 =
      (seqCachedDSState, .ok .skippedOldSequence)
    ∧ (seqCachedDSState.handle_websocket_message staleQuoteMessage 1).1.cache = []
    ∧ (DataService.new.handle_websocket_message staleQuoteMessage 1).2 =
        .ok (.processed [.marketDataReceived (quoteToMarketData sampleQuote)]) :=
  ⟨rfl, rfl, rfl⟩

theorem update_seq_preserves_dedup_flag (s : WebSocketService)
    (m : WebSocketMessage) :
    (s.update_sequence_tracker m).enable_deduplication =
      s.enable_deduplication := by
  cases h1 : m.symbol <;> cases h2 : m.sequence <;>
    simp [WebSocketService.update_sequence_tracker, h1, h2]

theorem update_seq_preserves_window (s : WebSocketService)
    (m : WebSocketMessage) :
    (s.update_sequence_tracker m).deduplication_window =
      s.deduplication_window := by
  cases h1 : m.symbol <;> cases h2 : m.sequence <;>
    simp [WebSocketService.update_sequence_tracker, h1, h2]

theorem update_seq_preserves_dedup_cache (s : WebSocketService)
    (m : WebSocketMessage) :
    (s.update_sequence_tracker m).message_deduplication_cache =
      s.message_deduplication_cache := by
  cases h1 : m.symbol <;> cases h2 : m.sequence <;>
    simp [WebSocketService.update_sequence_tracker, h1, h2]

theorem update_dedup_cache_eq (s : WebSocketService) (m : WebSocketMessage)
    (now : Nat) (sym : String) (h : m.symbol = some sym) :
    s.update_deduplication_cache m now =
      { s with message_deduplication_cache :=
          (alistInsert (messageId sym m.message_type m.timestamp) now
            s.message_deduplication_cache).filter (fun p =>
              decide (p.2 ≤ now) && decide (now - p.2 < s.deduplication_window)) } := by
  simp [WebSocketService.update_deduplication_cache, h]

theorem handle_message_dispatched_dedup_cache (s : WebSocketService)
    (m : WebSocketMessage) (now : Nat) (sym : String) (b : Bool)
    (hsym : m.symbol = some sym)
    (hdedup : s.enable_deduplication = true)
    (hres : (s.handle_message m now).2 = .dispatched b) :
    (s.handle_message m now).1.enable_deduplication = true
    ∧ (s.handle_message m now).1.deduplication_window = s.deduplication_window
    ∧ (s.handle_message m now).1.message_deduplication_cache =
        (alistInsert (messageId sym m.message_type m.timestamp) now
          s.message_deduplication_cache).filter (fun p =>
            decide (p.2 ≤ now) && decide (now - p.2 < s.deduplication_window)) := by
  by_cases hhb : m.message_type = .heartbeat
  · exfalso
    simp [WebSocketService.handle_message, hhb] at hres
  by_cases hdup : s.is_duplicate_message m now = true
  · exfalso
    simp [WebSocketService.handle_message, hhb, hdedup, hdup] at hres
  simp only [Bool.not_eq_true] at hdup
  rcases hq : (if s.data_quality_checks_enabled then
      WebSocketService.validate_message_quality m else Except.ok ()) with e | u
  · exfalso
    simp [WebSocketService.handle_message, hhb, hdedup, hdup, hq] at hres
  · refine ⟨?_, ?_, ?_⟩ <;>
      simp only [WebSocketService.handle_message, hhb, hdedup, hdup, hq,
        Bool.true_and, Bool.false_eq_true, if_false, if_true] <;>
      split <;>
      simp [update_seq_preserves_dedup_flag, update_seq_preserves_window,
        update_seq_preserves_dedup_cache, update_dedup_cache_eq, hsym, hdedup]

/-- C3: with deduplication enabled (as it is by default), when two inbound
data messages carry an identical (symbol, message kind, timestamp) key and
the second arrives within the deduplication window of the first being
recorded, the pair is processed exactly once: given that the first message
made it through the pipeline (it was dispatched to the registered handler
and re-emitted as an event), the second is silently dropped as a duplicate —
neither dispatched nor re-emitted. -/
theorem c3_duplicate_within_window_dropped (s : WebSocketService)
    (m1 m2 : WebSocketMessage) (now1 now2 : Nat) (symbol : String) (b : Bool)
    (hsym : m1.symbol = some symbol)
    (hsym2 : m2.symbol = m1.symbol)
    (hkind : m2.message_type = m1.message_type)
    (hts : m2.timestamp = m1.timestamp)
    (hdedup : s.enable_deduplication = true)
    (hfirst : (s.handle_message m1 now1).2 = .dispatched b)
    (horder : now1 ≤ now2)
    (hwin : now2 - now1 < s.deduplication_window) :
    ((s.handle_message m1 now1).1.handle_message m2 now2).2 = .duplicate := by
  have hwpos : 0 < s.deduplication_window :=
    Nat.lt_of_le_of_lt (Nat.zero_le _) hwin
  obtain ⟨he1, he2, he3⟩ :=
    handle_message_dispatched_dedup_cache s m1 now1 symbol b hsym hdedup hfirst
  set s1 := (s.handle_message m1 now1).1 with hs1def
  have hhb1 : m1.message_type ≠ .heartbeat := by
    intro h
    simp [WebSocketService.handle_message, h] at hfirst
  have hhb2 : ¬ (m2.message_type = .heartbeat) := by
    rw [hkind]
    exact hhb1
  have hdup2 : s1.is_duplicate_message m2 now2 = true := by
    simp only [WebSocketService.is_duplicate_message, hsym2, hsym, hkind, hts, he3,
      he2, alistInsert]
    rw [List.filter_cons]
    simp [Nat.sub_self, hwpos, alistLookup, horder, hwin]
  simp [WebSocketService.handle_message, hhb2, he1, hdup2]

/-- C3 witness: the theorem at the freshly constructed client (deduplication
enabled, 5-second default window): the same valid quote delivered at instants
0 and 1 is dispatched once and dropped as a duplicate the second time. -/
theorem c3_duplicate_witness :
    ((WebSocketService.new.handle_message freshQuoteMessage 0).1.handle_message
      freshQuoteMessage 1).2 = .duplicate :=
  c3_duplicate_within_window_dropped WebSocketService.new freshQuoteMessage
    freshQuoteMessage 0 1 "AAPL" false rfl rfl rfl rfl rfl rfl
    (by decide) (by decide)
